import Mathlib

/-!
Verification of the cotton GDD dashboard's computation engine
(`src/updated.py` of karanmaterra/cotton-gdd-dashboard).

The engine is embedded shallowly: Python floats become `ℚ`, nullable
weather fields become `Option ℚ`, `datetime.date` values become a
month/day pair (the whole season lives inside one calendar year), and
pandas data frames become lists of rows.  The database fetch
(`fetch_weather_data`) is external I/O; functions that call it here take
the fetched weather series as an explicit argument.
-/

namespace Cotton

/-- A calendar date inside one growing season (year omitted: sowing and
question dates all fall within a single May–October season). -/
structure Date where
  month : Nat
  day : Nat
deriving DecidableEq, Repr

/-- Lexicographic order on month/day, matching `datetime.date` comparison
within one year. -/
def Date.ble (a b : Date) : Bool :=
  a.month < b.month || (a.month = b.month && a.day ≤ b.day)

/-- Strict version of `Date.ble`. -/
def Date.blt (a b : Date) : Bool :=
  a.month < b.month || (a.month = b.month && a.day < b.day)

/-- Python's two-argument `min` on numbers (first argument wins ties). -/
def pymin (a b : ℚ) : ℚ := if a ≤ b then a else b

/-- Python's two-argument `max` on numbers (first argument wins ties). -/
def pymax (a b : ℚ) : ℚ := if b ≤ a then a else b

/-- Default base temperature of `calculate_gdd` (`tbase=15.6`). -/
def tbase : ℚ := 156 / 10

/-- Default upper cutoff of `calculate_gdd` (`tupper=34.0`). -/
def tupper : ℚ := 34

/-- `calculate_gdd(tmax, tmin)` (src/updated.py:206).  A missing (`NaN`)
temperature is `none` and yields 0; otherwise tmax is capped at `tupper`,
tmin is floored at `tbase`, and the capped values are averaged and the
base subtracted. -/
def calculate_gdd (tmax tmin : Option ℚ) : ℚ :=
  match tmax, tmin with
  | some tx, some tn => ((pymin tx tupper + pymax tn tbase) / 2) - tbase
  | _, _ => 0

/-- `determine_sowing_window(sowing_date)` (src/updated.py:421): the
ordered (month, day-range) → label rules, translated branch by branch. -/
def determine_sowing_window (d : Date) : Option String :=
  if d.month = 5 then
    if 20 ≤ d.day ∧ d.day ≤ 23 then some "May 20–23"
    else if 24 ≤ d.day ∧ d.day ≤ 27 then some "May 24–27"
    else if 28 ≤ d.day ∧ d.day ≤ 31 then some "May 28–31"
    else none
  else if d.month = 6 then
    if 1 ≤ d.day ∧ d.day ≤ 4 then some "June 1–4"
    else if 5 ≤ d.day ∧ d.day ≤ 8 then some "June 5–8"
    else if 9 ≤ d.day ∧ d.day ≤ 12 then some "June 9–12"
    else if 13 ≤ d.day ∧ d.day ≤ 16 then some "June 13–16"
    else if 17 ≤ d.day ∧ d.day ≤ 20 then some "June 17–20"
    else if 21 ≤ d.day ∧ d.day ≤ 24 then some "June 21–24"
    else if 25 ≤ d.day ∧ d.day ≤ 28 then some "June 25–28"
    else if 29 ≤ d.day ∧ d.day ≤ 30 then some "June 29–July 2"
    else none
  else if d.month = 7 then
    if 1 ≤ d.day ∧ d.day ≤ 2 then some "June 29–July 2"
    else if 3 ≤ d.day ∧ d.day ≤ 6 then some "July 3–6"
    else if 7 ≤ d.day ∧ d.day ≤ 10 then some "July 7–10"
    else if 11 ≤ d.day ∧ d.day ≤ 14 then some "July 11–14"
    else if d.day = 15 then some "July 15"
    else none
  else none

/-- One row of a phenophase threshold table: phase code with its
`(min_gdd, max_gdd)` interval. -/
abbrev ThresholdRow := String × ℚ × ℚ

/-- The `phenophase_thresholds` dict (src/updated.py:76), one entry per
sowing window, rows kept in insertion order P1..P10. -/
def phenophase_thresholds (w : String) : Option (List ThresholdRow) :=
  if w = "May 20–23" then some [("P1", 69, 73), ("P2", 259, 279), ("P3", 316, 351), ("P4", 502, 550), ("P5", 609, 665), ("P6", 883, 962), ("P7", 1004, 1115), ("P8", 1202, 1298), ("P9", 1294, 1375), ("P10", 1369, 1502)]
  else if w = "May 24–27" then some [("P1", 67, 71), ("P2", 253, 272), ("P3", 308, 343), ("P4", 491, 537), ("P5", 595, 649), ("P6", 862, 938), ("P7", 981, 1087), ("P8", 1174, 1266), ("P9", 1263, 1342), ("P10", 1336, 1469)]
  else if w = "May 28–31" then some [("P1", 65, 69), ("P2", 246, 265), ("P3", 301, 350), ("P4", 479, 523), ("P5", 580, 633), ("P6", 841, 914), ("P7", 957, 1060), ("P8", 1146, 1235), ("P9", 1233, 1309), ("P10", 1303, 1436)]
  else if w = "June 1–4" then some [("P1", 64, 71), ("P2", 240, 273), ("P3", 293, 343), ("P4", 351, 351), ("P5", 364, 424), ("P6", 818, 940), ("P7", 931, 1093), ("P8", 1114, 1272), ("P9", 1199, 1346), ("P10", 1270, 1403)]
  else if w = "June 5–8" then some [("P1", 62, 70), ("P2", 234, 269), ("P3", 286, 337), ("P4", 455, 529), ("P5", 551, 639), ("P6", 799, 924), ("P7", 910, 1075), ("P8", 1089, 1251), ("P9", 1172, 1325), ("P10", 1237, 1370)]
  else if w = "June 9–12" then some [("P1", 60, 68), ("P2", 228, 264), ("P3", 279, 330), ("P4", 444, 519), ("P5", 538, 627), ("P6", 779, 908), ("P7", 887, 1057), ("P8", 1062, 1230), ("P9", 1143, 1304), ("P10", 1204, 1337)]
  else if w = "June 13–16" then some [("P1", 59, 66), ("P2", 222, 259), ("P3", 271, 323), ("P4", 432, 508), ("P5", 524, 615), ("P6", 759, 892), ("P7", 864, 1039), ("P8", 1035, 1209), ("P9", 1114, 1283), ("P10", 1171, 1304)]
  else if w = "June 17–20" then some [("P1", 56, 58), ("P2", 216, 253), ("P3", 271, 317), ("P4", 379, 443), ("P5", 410, 479), ("P6", 737, 838), ("P7", 859, 949), ("P8", 917, 1019), ("P9", 1014, 1068), ("P10", 1138, 1271)]
  else if w = "June 21–24" then some [("P1", 55, 57), ("P2", 210, 247), ("P3", 263, 311), ("P4", 368, 433), ("P5", 398, 467), ("P6", 716, 822), ("P7", 834, 931), ("P8", 891, 999), ("P9", 986, 1050), ("P10", 1105, 1238)]
  else if w = "June 25–28" then some [("P1", 53, 55), ("P2", 204, 241), ("P3", 256, 305), ("P4", 358, 423), ("P5", 387, 456), ("P6", 695, 805), ("P7", 810, 913), ("P8", 865, 979), ("P9", 957, 1031), ("P10", 1072, 1205)]
  else if w = "June 29–July 2" then some [("P1", 52, 54), ("P2", 198, 235), ("P3", 248, 299), ("P4", 347, 413), ("P5", 376, 444), ("P6", 675, 789), ("P7", 786, 895), ("P8", 839, 959), ("P9", 928, 1013), ("P10", 1039, 1172)]
  else if w = "July 3–6" then some [("P1", 50, 52), ("P2", 190, 226), ("P3", 238, 284), ("P4", 338, 396), ("P5", 364, 430), ("P6", 653, 771), ("P7", 761, 900), ("P8", 811, 961), ("P9", 895, 1008), ("P10", 1006, 1139)]
  else if w = "July 7–10" then some [("P1", 49, 52), ("P2", 187, 226), ("P3", 235, 284), ("P4", 333, 396), ("P5", 360, 430), ("P6", 646, 771), ("P7", 752, 900), ("P8", 802, 961), ("P9", 885, 1008), ("P10", 1000, 1106)]
  else if w = "July 11–14" then some [("P1", 49, 50), ("P2", 187, 220), ("P3", 235, 276), ("P4", 333, 386), ("P5", 360, 418), ("P6", 646, 752), ("P7", 752, 876), ("P8", 802, 935), ("P9", 885, 976), ("P10", 1000, 1073)]
  else if w = "July 15" then some [("P1", 49, 49), ("P2", 187, 214), ("P3", 235, 268), ("P4", 333, 375), ("P5", 360, 406), ("P6", 646, 732), ("P7", 752, 852), ("P8", 802, 908), ("P9", 885, 944), ("P10", 1000, 1040)]
  else none

/-- The `phenophase_descriptions` dict (src/updated.py:95). -/
def phenophase_descriptions (p : String) : String :=
  if p = "P1" then "Emergence"
  else if p = "P2" then "First square"
  else if p = "P3" then "First flower"
  else if p = "P4" then "Peak flowering"
  else if p = "P5" then "First boll"
  else if p = "P6" then "Boll development"
  else if p = "P7" then "First boll open"
  else if p = "P8" then "50% boll open"
  else if p = "P9" then "90% boll open"
  else if p = "P10" then "Harvest ready"
  else ""

/-- Insert into a list kept sorted by descending `min_gdd`; stable, so it
reproduces Python's `sorted(..., key=lambda x: x[1][0], reverse=True)`. -/
def insertDescByMin (x : ThresholdRow) : List ThresholdRow → List ThresholdRow
  | [] => [x]
  | y :: ys => if y.2.1 ≤ x.2.1 then x :: y :: ys else y :: insertDescByMin x ys

/-- Sort threshold rows by descending `min_gdd` (stable insertion sort),
the order in which `get_current_phenophase` scans them. -/
def sortDescByMin : List ThresholdRow → List ThresholdRow
  | [] => []
  | x :: xs => insertDescByMin x (sortDescByMin xs)

/-- The scan loop of `get_current_phenophase`: return the first row whose
lower bound the cumulative GDD meets, else the P0 sentinel. -/
def scanFirstGe (g : ℚ) : List ThresholdRow → String × String
  | [] => ("P0", "Pre-emergence")
  | (p, mn, _) :: rest =>
    if mn ≤ g then (p, phenophase_descriptions p) else scanFirstGe g rest

/-- `get_current_phenophase(cumulative_gdd, sowing_date)`
(src/updated.py:462).  The inner `none` branch is unreachable: every
label `determine_sowing_window` can return is a key of
`phenophase_thresholds`. -/
def get_current_phenophase (g : ℚ) (sowing : Date) : Option (String × String) :=
  match determine_sowing_window sowing with
  | none => none
  | some w =>
    match phenophase_thresholds w with
    | none => none
    | some t => some (scanFirstGe g (sortDescByMin t))

/-- One scoring condition of a risk rule: the Python dicts carry a
`parameter`, a `weight`, and either a `range` pair or a fixed `value`
(`crange`/`cvalue` here; exactly one is `some` in the catalog). -/
structure Condition where
  parameter : String
  crange : Option (ℚ × ℚ)
  cvalue : Option ℚ
  weight : ℚ
deriving DecidableEq, Repr

/-- A pest or disease rule of the catalogs (src/updated.py:109,143). -/
structure RiskRule where
  name : String
  phenophases : List String
  conditions : List Condition
  threshold : ℚ
  advisory : List String
deriving DecidableEq, Repr

/-- The "Aphids" entry of `insect_risks` (src/updated.py:110). -/
def aphidsRule : RiskRule :=
  ⟨"Aphids", ["P1", "P2", "P3"],
    [⟨"temp_max", some (25, 35), none, (4 / 10)⟩,
     ⟨"humidity", some (60, 80), none, (3 / 10)⟩,
     ⟨"sunshine_hours", some (4, 8), none, (3 / 10)⟩], 40,
    ["Apply neem oil or insecticidal soap.",
     "Introduce natural predators like ladybugs.",
     "Monitor aphid populations weekly."]⟩

/-- The "Whitefly" entry of `insect_risks` (src/updated.py:125). -/
def whiteflyRule : RiskRule :=
  ⟨"Whitefly", ["P2", "P3", "P4"],
    [⟨"temp_max", some (28, 38), none, (5 / 10)⟩,
     ⟨"humidity", some (50, 70), none, (3 / 10)⟩,
     ⟨"rain_probability", some (0, 30), none, (2 / 10)⟩], 40,
    ["Use yellow sticky traps.",
     "Apply imidacloprid or thiamethoxam.",
     "Remove alternate host plants."]⟩

/-- The `insect_risks` catalog (src/updated.py:109). -/
def insect_risks : List RiskRule := [aphidsRule, whiteflyRule]

/-- The "Bacterial Blight" entry of `disease_risks` (src/updated.py:144). -/
def bacterialBlightRule : RiskRule :=
  ⟨"Bacterial Blight", ["P2", "P3", "P4", "P5"],
    [⟨"temp_max", some (25, 35), none, (3 / 10)⟩,
     ⟨"humidity", some (70, 90), none, (4 / 10)⟩,
     ⟨"rain_probability", some (50, 100), none, (3 / 10)⟩], 40,
    ["Use resistant varieties.",
     "Apply copper-based bactericides.",
     "Remove and destroy infected plant debris."]⟩

/-- The "Fusarium Wilt" entry of `disease_risks` (src/updated.py:159). -/
def fusariumWiltRule : RiskRule :=
  ⟨"Fusarium Wilt", ["P3", "P4", "P5", "P6"],
    [⟨"temp_max", some (25, 32), none, (4 / 10)⟩,
     ⟨"humidity", some (60, 85), none, (3 / 10)⟩,
     ⟨"rainy_days", none, some 5, (3 / 10)⟩], 40,
    ["Use disease-free seeds.",
     "Apply soil fungicides.",
     "Practice crop rotation."]⟩

/-- The `disease_risks` catalog (src/updated.py:143). -/
def disease_risks : List RiskRule := [bacterialBlightRule, fusariumWiltRule]

/-- The `pbw_weather_conditions` dict (src/updated.py:177), in insertion
order. -/
def pbw_weather_conditions : List Condition :=
  [⟨"temp_max", some (30, 40), none, (5 / 10)⟩,
   ⟨"humidity", some (60, 80), none, (3 / 10)⟩,
   ⟨"rain_probability", some (0, 30), none, (2 / 10)⟩]

/-- One row of the weather series, as selected by `fetch_weather_data`;
nullable numeric columns are `Option ℚ`.  The SQL query never selects a
`rain_prob` column, so in real runs that field is always `none` — the
evaluators guard for it anyway, which is why the field is kept. -/
structure WeatherRow where
  date : Date
  tmax : Option ℚ
  tmin : Option ℚ
  humidity : Option ℚ
  sunshine_hours : Option ℚ
  rain_prob : Option ℚ
  precipitation : ℚ
deriving DecidableEq, Repr

/-- Score contributed by one range-style condition: full weight when the
parameter value is present and inside the closed range, else 0.  (The
catalog always supplies `crange` for range-style parameters, so the
`none` fallback is unreachable there.) -/
def rangeScore (v : Option ℚ) (c : Condition) : ℚ :=
  match v, c.crange with
  | some x, some (lo, hi) => if lo ≤ x ∧ x ≤ hi then c.weight else 0
  | _, _ => 0

/-- The per-condition branch chain of `evaluate_insect_risks`'s scoring
loop (src/updated.py:341): recognizes temp_max, humidity,
sunshine_hours, rain_probability; any other parameter scores 0. -/
def insectCondScore (tmax humidity sunshine rain_prob : Option ℚ)
    (c : Condition) : ℚ :=
  if c.parameter = "temp_max" then rangeScore tmax c
  else if c.parameter = "humidity" then rangeScore humidity c
  else if c.parameter = "sunshine_hours" then rangeScore sunshine c
  else if c.parameter = "rain_probability" then rangeScore rain_prob c
  else 0

/-- The per-condition branch chain of `evaluate_disease_risks`'s scoring
loop (src/updated.py:392): temp_max, humidity, rain_probability, plus
the count-style rainy_days test. -/
def diseaseCondScore (tmax humidity rain_prob : Option ℚ) (rainy_days : Nat)
    (c : Condition) : ℚ :=
  if c.parameter = "temp_max" then rangeScore tmax c
  else if c.parameter = "humidity" then rangeScore humidity c
  else if c.parameter = "rain_probability" then rangeScore rain_prob c
  else if c.parameter = "rainy_days" then
    match c.cvalue with
    | some v => if v ≤ (rainy_days : ℚ) then c.weight else 0
    | none => 0
  else 0

/-- The per-condition branch chain of `evaluate_pbw_risk`'s scoring loop
(src/updated.py:284): temp_max, humidity, rain_probability. -/
def pbwCondScore (tmax humidity rain_prob : Option ℚ) (c : Condition) : ℚ :=
  if c.parameter = "temp_max" then rangeScore tmax c
  else if c.parameter = "humidity" then rangeScore humidity c
  else if c.parameter = "rain_probability" then rangeScore rain_prob c
  else 0

/-- `total_possible_score = sum(cond["weight"] for cond in conditions)`:
the sum of the weights of ALL of a rule's conditions. -/
def totalPossibleScore (conds : List Condition) : ℚ :=
  conds.foldl (fun s c => s + c.weight) 0

/-- The accumulated `score` of `evaluate_insect_risks` for one rule. -/
def insectRuleScore (tmax humidity sunshine rain_prob : Option ℚ)
    (r : RiskRule) : ℚ :=
  r.conditions.foldl (fun s c => s + insectCondScore tmax humidity sunshine rain_prob c) 0

/-- `risk_percentage = (score / total_possible_score) * 100 if
total_possible_score > 0 else 0` for an insect rule. -/
def insectRiskPercentage (tmax humidity sunshine rain_prob : Option ℚ)
    (r : RiskRule) : ℚ :=
  if 0 < totalPossibleScore r.conditions then
    insectRuleScore tmax humidity sunshine rain_prob r / totalPossibleScore r.conditions * 100
  else 0

/-- The accumulated `score` of `evaluate_disease_risks` for one rule. -/
def diseaseRuleScore (tmax humidity rain_prob : Option ℚ) (rainy_days : Nat)
    (r : RiskRule) : ℚ :=
  r.conditions.foldl (fun s c => s + diseaseCondScore tmax humidity rain_prob rainy_days c) 0

/-- `risk_percentage` for a disease rule. -/
def diseaseRiskPercentage (tmax humidity rain_prob : Option ℚ)
    (rainy_days : Nat) (r : RiskRule) : ℚ :=
  if 0 < totalPossibleScore r.conditions then
    diseaseRuleScore tmax humidity rain_prob rainy_days r / totalPossibleScore r.conditions * 100
  else 0

/-- An emitted alert: pest/disease name, its risk percentage, and the
rule's advisory text. -/
structure Alert where
  name : String
  risk_percentage : ℚ
  advisory : List String
deriving DecidableEq, Repr

/-- `evaluate_insect_risks(weather_row, phenophase, date)`
(src/updated.py:321).  An empty single-day selection is `none` and
returns no alerts; otherwise each catalog rule whose phenophase set
contains the current phenophase is scored, and an alert is emitted when
the risk percentage meets the rule's own threshold. -/
def evaluate_insect_risks (weather_row : Option WeatherRow)
    (phenophase : String) : List Alert :=
  match weather_row with
  | none => []
  | some row =>
    insect_risks.foldl (fun alerts insect =>
      if phenophase ∈ insect.phenophases then
        let risk := insectRiskPercentage row.tmax row.humidity row.sunshine_hours row.rain_prob insect
        if insect.threshold ≤ risk then alerts ++ [⟨insect.name, risk, insect.advisory⟩]
        else alerts
      else alerts) []

/-- `calculate_rainy_days(weather_data, date)` (src/updated.py:218):
count of days with positive precipitation from the first of `d`'s month
through `d`. -/
def calculate_rainy_days (weather_data : List WeatherRow) (d : Date) : Nat :=
  let month_start : Date := ⟨d.month, 1⟩
  ((weather_data.filter (fun r => month_start.ble r.date && r.date.ble d)).filter
    (fun r => decide (0 < r.precipitation))).length

/-- `calculate_monthly_rainfall(weather_data, date)` (src/updated.py:230). -/
def calculate_monthly_rainfall (weather_data : List WeatherRow) (d : Date) : ℚ :=
  let month_start : Date := ⟨d.month, 1⟩
  ((weather_data.filter (fun r => month_start.ble r.date && r.date.ble d)).map
    (fun r => r.precipitation)).sum

/-- `evaluate_disease_risks(weather_data, phenophase, date)`
(src/updated.py:370).  Selects the row for the target day from the full
series (no row → no alerts), computes the month-to-date rainy-day count,
then scores each applicable disease rule. -/
def evaluate_disease_risks (weather_data : List WeatherRow)
    (phenophase : String) (d : Date) : List Alert :=
  match (weather_data.filter (fun r => decide (r.date = d))).head? with
  | none => []
  | some row =>
    let rainy_days := calculate_rainy_days weather_data d
    disease_risks.foldl (fun alerts disease =>
      if phenophase ∈ disease.phenophases then
        let risk := diseaseRiskPercentage row.tmax row.humidity row.rain_prob rainy_days disease
        if disease.threshold ≤ risk then alerts ++ [⟨disease.name, risk, disease.advisory⟩]
        else alerts
      else alerts) []

/-- The record returned by `evaluate_pbw_risk`. -/
structure PBWRisk where
  stage : String
  generation : String
  adjusted_severity : String
  risk_percentage : ℚ
  recommendations : List String
deriving DecidableEq, Repr

/-- `evaluate_pbw_risk(pbw_gdd, phenophase, weather_row, date)`
(src/updated.py:262).  `generation` mirrors
`min(int(pbw_gdd // 600) + 1, 3)` — Python float floor-division then
truncation of an already-integral value, i.e. the floor. -/
def evaluate_pbw_risk (pbw_gdd : ℚ) (phenophase : String)
    (weather_row : Option WeatherRow) : PBWRisk :=
  if phenophase ∈ (["P4", "P5", "P6", "P7", "P8"] : List String) then
    let stage := if pbw_gdd < 200 then "Larvae" else if pbw_gdd < 400 then "Pupae" else "Adult"
    let g := Rat.floor (pbw_gdd / 600) + 1
    let generation : ℤ := if g ≤ 3 then g else 3
    let severity := if pbw_gdd < 300 then "Low" else if pbw_gdd < 600 then "Moderate" else "High"
    let total := totalPossibleScore pbw_weather_conditions
    let score :=
      match weather_row with
      | none => 0
      | some row =>
        pbw_weather_conditions.foldl (fun s c => s + pbwCondScore row.tmax row.humidity row.rain_prob c) 0
    let risk := if 0 < total then score / total * 100 else 0
    let adjusted := if 60 ≤ risk ∧ severity ≠ "High" then "High" else severity
    let recs :=
      if 40 ≤ risk then
        ["Monitor fields regularly.",
         "Use pheromone traps for PBW.",
         "Apply insecticides if larvae are detected."]
      else ["Continue regular monitoring."]
    ⟨stage, "Generation " ++ toString generation, adjusted, risk, recs⟩
  else ⟨"Not active", "N/A", "None", 0, ["No action required."]⟩

/-- Payload of `predict_harvest_dates`'s string result: harvest-ready,
a projected earliest/latest pair, or the except-path fallback text. -/
inductive HarvestPrediction where
  | ready : HarvestPrediction
  | window (earliest latest : Nat) : HarvestPrediction
  | unavailable : HarvestPrediction
deriving DecidableEq, Repr

/-- `predict_harvest_dates(cumulative_gdd, sowing_window, question_date)`
(src/updated.py:242), with the question date as a day ordinal so that
`date + timedelta(days=n)` is `+ n`.  `unavailable` models the
caught-exception fallback ("Harvest prediction unavailable."), reachable
only when the window label is not a catalog key.  `int(remaining /
assumed)` truncates toward zero, which for the positive remaining GDD of
this branch is the floor. -/
def predict_harvest_dates (cumulative_gdd : ℚ) (sowing_window : String)
    (question_date : Nat) : HarvestPrediction :=
  match phenophase_thresholds sowing_window with
  | none => .unavailable
  | some t =>
    match (t.filter (fun r => decide (r.1 = "P10"))).head? with
    | none => .unavailable
    | some r =>
      let remaining := r.2.1 - cumulative_gdd
      if remaining ≤ 0 then .ready
      else
        let assumed_gdd : ℚ := pymax 0 (25 - tbase)
        let days := (Rat.floor (remaining / assumed_gdd)).toNat
        .window (question_date + days) (question_date + days + 7)

/-- Association list of phenophase start dates, the embedding of the
`phenophase_dates` dict keyed by `phenophase_descriptions`' keys. -/
def initPhaseDates : List (String × Option Date) :=
  [("P1", none), ("P2", none), ("P3", none), ("P4", none), ("P5", none),
   ("P6", none), ("P7", none), ("P8", none), ("P9", none), ("P10", none)]

/-- Dict read `phenophase_dates[p]` (every key probed is present). -/
def lookupPhase (pd : List (String × Option Date)) (p : String) : Option Date :=
  (((pd.filter (fun e => decide (e.1 = p))).head?).map (fun e => e.2)).getD none

/-- Dict write `phenophase_dates[p] = d`. -/
def setPhaseDate (pd : List (String × Option Date)) (p : String) (d : Date) :
    List (String × Option Date) :=
  pd.map (fun e => if e.1 = p then (e.1, some d) else e)

/-- Running state of `update_gdd`'s per-day loop. -/
structure GddLoopState where
  cumulative_gdd : ℚ
  pbw_gdd : ℚ
  p4_start_date : Option Date
  total_rainfall : ℚ
  phenophase_dates : List (String × Option Date)
deriving DecidableEq, Repr

/-- One iteration of `update_gdd`'s loop body (src/updated.py:488),
after the skip/break guards have passed. -/
def updateGddStep (p4_gdd_threshold : ℚ) (thresholds : List ThresholdRow)
    (st : GddLoopState) (r : WeatherRow) : GddLoopState :=
  let current := r.date
  let daily := calculate_gdd r.tmax r.tmin
  let cum := st.cumulative_gdd + daily
  let rain := st.total_rainfall + r.precipitation
  let pd := thresholds.foldl (fun pd tr =>
    if lookupPhase pd tr.1 = none ∧ tr.2.1 ≤ cum then setPhaseDate pd tr.1 current else pd)
    st.phenophase_dates
  let p4sd :=
    if st.p4_start_date = none ∧ p4_gdd_threshold ≤ cum then some current else st.p4_start_date
  let pbwg :=
    match p4sd with
    | some d => if d.ble current then st.pbw_gdd + daily else st.pbw_gdd
    | none => st.pbw_gdd
  GddLoopState.mk cum pbwg p4sd rain pd

/-- `update_gdd`'s walk over the weather rows: days before sowing are
skipped (`continue`), the first day after the question date stops the
walk (`break`). -/
def updateGddLoop (sowing question : Date) (p4_gdd_threshold : ℚ)
    (thresholds : List ThresholdRow) :
    List WeatherRow → GddLoopState → GddLoopState
  | [], st => st
  | r :: rs, st =>
    if r.date.blt sowing then
      updateGddLoop sowing question p4_gdd_threshold thresholds rs st
    else if question.blt r.date then st
    else
      updateGddLoop sowing question p4_gdd_threshold thresholds rs
        (updateGddStep p4_gdd_threshold thresholds st r)

/-- The tuple returned by `update_gdd`. -/
structure GddResult where
  cumulative_gdd : ℚ
  p4_start_date : Option Date
  pbw_gdd : ℚ
  total_rainfall : ℚ
  avg_temp : Option ℚ
  weather_data : List WeatherRow
  phenophase_dates : List (String × Option Date)
deriving DecidableEq, Repr

/-- `update_gdd(sowing_date, question_date, p4_gdd_threshold, grid_id,
sowing_window)` (src/updated.py:474), with the fetched weather series
passed in explicitly (the fetch itself is external I/O).  An empty
series returns the zero/empty tuple early (line 478).  The final
average-temperature expression (line 510) indexes `.iloc[0]` on the rows
matching the question date; when the series is non-empty but has no such
row this raises IndexError, which the function-wide `except` turns into
the zero/empty tuple (line 516, with an empty frame in place of the
data) — that caught-exception path is the second `none` branch below.
When the question-date row exists but a temperature is missing, the
float average would be NaN; that is modelled as `none` as well, since
nothing downstream distinguishes the two. -/
def update_gdd (sowing question : Date) (p4_gdd_threshold : ℚ)
    (weather_data : List WeatherRow) (sowing_window : String) : GddResult :=
  match weather_data with
  | [] => ⟨0, none, 0, 0, none, weather_data, initPhaseDates⟩
  | _ =>
    match phenophase_thresholds sowing_window with
    | none => ⟨0, none, 0, 0, none, [], initPhaseDates⟩
    | some thresholds =>
      let st := updateGddLoop sowing question p4_gdd_threshold thresholds
        weather_data (GddLoopState.mk 0 0 none 0 initPhaseDates)
      match (weather_data.filter (fun r => decide (r.date = question))).head? with
      | none => ⟨0, none, 0, 0, none, [], initPhaseDates⟩
      | some qrow =>
        let avg :=
          match qrow.tmax, qrow.tmin with
          | some a, some b => some ((a + b) / 2)
          | _, _ => none
        ⟨st.cumulative_gdd, st.p4_start_date, st.pbw_gdd, st.total_rainfall,
         avg, weather_data, st.phenophase_dates⟩

/-- Dict write for the scanners' per-name maps, modelled as functions. -/
def updFun {α : Type} (f : String → Option α) (k : String) (v : α) :
    String → Option α :=
  fun n => if n = k then some v else f n

/-- Aggregation state of the historical scanners: the four per-name
dicts plus the running cumulative GDD. -/
structure ScanState where
  risk_days : String → Option Nat
  first_dates : String → Option Date
  max_risks : String → Option ℚ
  max_risk_dates : String → Option Date
  cumulative_gdd : ℚ

/-- Empty scanner state. -/
def initScanState : ScanState :=
  ScanState.mk (fun _ => none) (fun _ => none) (fun _ => none) (fun _ => none) 0

/-- The per-alert aggregation block the scanners repeat inline
(src/updated.py:545, 559, 609): ensure the name has an entry (day count
0, first date = current date, max risk and its date = this alert), add
one conducive day, and overwrite the stored maximum only when the new
risk is strictly greater.  On a fresh entry the strict comparison of the
risk against itself fails, so the two inline assignments collapse to
this one definition; the Pink Boll Worm block's
`insect_max_risks.get(name, 0)` variant coincides because the entry was
ensured just above the comparison. -/
def recordAlert (name : String) (risk : ℚ) (d : Date) (st : ScanState) : ScanState :=
  match st.risk_days name, st.max_risks name with
  | some c, some m =>
    if m < risk then
      ScanState.mk (updFun st.risk_days name (c + 1)) st.first_dates
        (updFun st.max_risks name risk) (updFun st.max_risk_dates name d)
        st.cumulative_gdd
    else
      ScanState.mk (updFun st.risk_days name (c + 1)) st.first_dates
        st.max_risks st.max_risk_dates st.cumulative_gdd
  | _, _ =>
    ScanState.mk (updFun st.risk_days name 1) (updFun st.first_dates name d)
      (updFun st.max_risks name risk) (updFun st.max_risk_dates name d)
      st.cumulative_gdd

/-- One day of `calculate_historical_insect_risks`'s replay
(src/updated.py:532): accumulate GDD, re-derive the phenophase, evaluate
the insect rules on the single-day selection, record alerts that meet
the caller's threshold, then the PBW block once the PBW clock has a
start date no later than the current day. -/
def insectScanStep (sowing : Date) (weather_data : List WeatherRow)
    (p4_start_date : Option Date) (pbw_gdd risk_threshold : ℚ)
    (st : ScanState) (r : WeatherRow) : ScanState :=
  let current := r.date
  let daily := calculate_gdd r.tmax r.tmin
  let cum := st.cumulative_gdd + daily
  let st := ScanState.mk st.risk_days st.first_dates st.max_risks st.max_risk_dates cum
  let weather_row := (weather_data.filter (fun x => decide (x.date = current))).head?
  match get_current_phenophase cum sowing with
  | none => st
  | some p =>
    let st := (evaluate_insect_risks weather_row p.1).foldl (fun s a =>
      if risk_threshold ≤ a.risk_percentage then recordAlert a.name a.risk_percentage current s
      else s) st
    match p4_start_date with
    | none => st
    | some p4d =>
      if p4d.ble current then
        let pbw_risk := evaluate_pbw_risk pbw_gdd p.1 weather_row
        if risk_threshold ≤ pbw_risk.risk_percentage then
          recordAlert "Pink Boll Worm" pbw_risk.risk_percentage current st
        else st
      else st

/-- The scan loop of `calculate_historical_insect_risks`: the first row
dated after the end date stops the walk (`break`). -/
def insectScanRows (sowing end_date : Date) (weather_data : List WeatherRow)
    (p4_start_date : Option Date) (pbw_gdd risk_threshold : ℚ) :
    List WeatherRow → ScanState → ScanState
  | [], st => st
  | r :: rs, st =>
    if end_date.blt r.date then st
    else
      insectScanRows sowing end_date weather_data p4_start_date pbw_gdd risk_threshold rs
        (insectScanStep sowing weather_data p4_start_date pbw_gdd risk_threshold st r)

/-- `calculate_historical_insect_risks(sowing_date, end_date, grid_id,
p4_start_date, pbw_gdd, risk_threshold)` (src/updated.py:519), with the
fetched series passed in; the result is the final aggregation state
(the source only renders it to a summary string, which is out of the
computation's scope). -/
def calculate_historical_insect_risks (sowing end_date : Date)
    (weather_data : List WeatherRow) (p4_start_date : Option Date)
    (pbw_gdd risk_threshold : ℚ) : ScanState :=
  insectScanRows sowing end_date weather_data p4_start_date pbw_gdd risk_threshold
    weather_data initScanState

/-- One day of `calculate_historical_disease_risks`'s replay
(src/updated.py:598); the disease evaluator receives the whole series
(it re-selects the day's row and the month-to-date window itself). -/
def diseaseScanStep (sowing : Date) (weather_data : List WeatherRow)
    (risk_threshold : ℚ) (st : ScanState) (r : WeatherRow) : ScanState :=
  let current := r.date
  let daily := calculate_gdd r.tmax r.tmin
  let cum := st.cumulative_gdd + daily
  let st := ScanState.mk st.risk_days st.first_dates st.max_risks st.max_risk_dates cum
  match get_current_phenophase cum sowing with
  | none => st
  | some p =>
    (evaluate_disease_risks weather_data p.1 current).foldl (fun s a =>
      if risk_threshold ≤ a.risk_percentage then recordAlert a.name a.risk_percentage current s
      else s) st

/-- The scan loop of `calculate_historical_disease_risks`. -/
def diseaseScanRows (sowing end_date : Date) (weather_data : List WeatherRow)
    (risk_threshold : ℚ) : List WeatherRow → ScanState → ScanState
  | [], st => st
  | r :: rs, st =>
    if end_date.blt r.date then st
    else
      diseaseScanRows sowing end_date weather_data risk_threshold rs
        (diseaseScanStep sowing weather_data risk_threshold st r)

/-- `calculate_historical_disease_risks(sowing_date, end_date, grid_id,
risk_threshold)` (src/updated.py:585), result as final aggregation
state. -/
def calculate_historical_disease_risks (sowing end_date : Date)
    (weather_data : List WeatherRow) (risk_threshold : ℚ) : ScanState :=
  diseaseScanRows sowing end_date weather_data risk_threshold weather_data initScanState

/-! ### Helper lemmas -/

theorem pymin_eq_min (a b : ℚ) : pymin a b = min a b := by
  rw [pymin, min_def]

theorem pymax_eq_max (a b : ℚ) : pymax a b = max a b := by
  rw [pymax, max_def]
  rcases le_or_lt b a with h | h
  · rw [if_pos h]
    rcases le_or_lt a b with h2 | h2
    · rw [if_pos h2]; exact le_antisymm h2 h
    · rw [if_neg (not_le.mpr h2)]
  · rw [if_neg (not_le.mpr h), if_pos h.le]

theorem ratFloor_eq_intFloor (q : ℚ) : Rat.floor q = ⌊q⌋ := rfl

theorem Date.ble_refl (a : Date) : a.ble a = true := by simp [Date.ble]

theorem Date.ble_trans {a b c : Date} (h1 : a.ble b = true) (h2 : b.ble c = true) :
    a.ble c = true := by
  simp only [Date.ble, Bool.or_eq_true, decide_eq_true_eq, Bool.and_eq_true] at *
  omega

/-! ### C2 — daily GDD formula -/

/-- C2 counterexample: the claim that "a day colder than the base
temperature contributes zero GDD" fails on the code.  With tmax = 10,
tmin = 5 (both below the 15.6 base), `calculate_gdd` returns
(10 + 15.6)/2 − 15.6 = −2.8, not 0: only tmin is floored at the base,
tmax is left untouched by the 34.0 cap. -/
theorem C2_cold_day_counterexample :
    calculate_gdd (some 10) (some 5) = -(14 / 5) ∧
    calculate_gdd (some 10) (some 5) ≠ 0 := by
  constructor
  · with_unfolding_all rfl
  · with_unfolding_all decide

/-- C2 (amended): `calculate_gdd(tmax, tmin)` equals the average of tmax
capped at the 34.0 ceiling and tmin floored at 15.6, minus the 15.6
base; a day with a missing tmax or tmin contributes zero GDD; and — the
amendment — a day colder than the base (tmax below 15.6, tmin ≤ tmax)
contributes strictly NEGATIVE GDD, namely (tmax − 15.6)/2, because only
tmin is floored before averaging. -/
theorem C2_calculate_gdd_formula (tmax tmin : ℚ) :
    calculate_gdd (some tmax) (some tmin)
        = (min tmax 34 + max tmin (156 / 10)) / 2 - 156 / 10
    ∧ (∀ t, calculate_gdd none t = 0 ∧ calculate_gdd t none = 0)
    ∧ (tmin ≤ tmax → tmax < 156 / 10 →
        calculate_gdd (some tmax) (some tmin) = (tmax - 156 / 10) / 2
        ∧ calculate_gdd (some tmax) (some tmin) < 0) := by
  have hbase : tbase = 156 / 10 := rfl
  have hupper : tupper = 34 := rfl
  refine ⟨?_, fun t => ⟨rfl, by cases t <;> rfl⟩, fun h1 h2 => ?_⟩
  · simp only [calculate_gdd, pymin_eq_min, pymax_eq_max, hbase, hupper]
  · have hmin : pymin tmax tupper = tmax := by
      rw [pymin, if_pos]
      rw [hupper]; linarith
    have hmax : pymax tmin tbase = tbase := by
      rw [pymax, if_neg]
      rw [hbase]; intro h; linarith
    have key : calculate_gdd (some tmax) (some tmin) = (tmax + tbase) / 2 - tbase := by
      simp only [calculate_gdd, hmin, hmax]
    rw [key, hbase]
    constructor
    · ring
    · linarith

/-- Witness for C2: the amended cold-day clause at tmax = 10, tmin = 5
gives (10 − 15.6)/2 = −2.8 < 0. -/
theorem C2_calculate_gdd_formula_witness :
    calculate_gdd (some 10) (some 5) = (10 - 156 / 10) / 2
    ∧ calculate_gdd (some 10) (some 5) < 0 :=
  (C2_calculate_gdd_formula 10 5).2.2 (by norm_num) (by norm_num)

/-! ### C7 — harvest predictor -/

/-- C7: for a sowing window whose threshold row is `t` with P10 entry
`p10`, the harvest predictor reports harvest-ready exactly when the
cumulative GDD meets or exceeds P10's lower bound — including exact
equality — and otherwise projects at the fixed rate 25.0 − 15.6 = 9.4
GDD/day: days = floor(remaining_gdd / 9.4), earliest harvest date =
question date + days, latest = earliest + 7 days. -/
theorem C7_predict_harvest_dates (g : ℚ) (w : String) (qd : Nat)
    (t : List ThresholdRow) (p10 : ThresholdRow)
    (ht : phenophase_thresholds w = some t)
    (hp : (t.filter (fun r => decide (r.1 = "P10"))).head? = some p10) :
    (p10.2.1 ≤ g → predict_harvest_dates g w qd = .ready)
    ∧ (g < p10.2.1 →
        (25 : ℚ) - 156 / 10 = 47 / 5
        ∧ predict_harvest_dates g w qd =
            .window (qd + (⌊(p10.2.1 - g) / (47 / 5)⌋).toNat)
                    (qd + (⌊(p10.2.1 - g) / (47 / 5)⌋).toNat + 7)) := by
  have hrate : pymax 0 (25 - tbase) = 47 / 5 := by
    have h1 : (25 : ℚ) - tbase = 47 / 5 := by norm_num [tbase]
    rw [h1, pymax, if_neg]
    norm_num
  constructor
  · intro h
    simp only [predict_harvest_dates, ht, hp]
    rw [if_pos (by linarith : p10.2.1 - g ≤ 0)]
  · intro h
    refine ⟨by norm_num, ?_⟩
    simp only [predict_harvest_dates, ht, hp]
    rw [if_neg (by intro hc; linarith : ¬ p10.2.1 - g ≤ 0), hrate,
      ratFloor_eq_intFloor]

/-- Witness for C7, on the "June 1–4" table (P10 lower bound 1270):
cumulative GDD exactly 1270 is already harvest-ready, while 1260 with
question day 100 projects days = floor(10/9.4) = 1, i.e. days 101 to
108. -/
theorem C7_predict_harvest_dates_witness :
    predict_harvest_dates 1270 "June 1–4" 100 = .ready
    ∧ predict_harvest_dates 1260 "June 1–4" 100 = .window 101 108 := by
  have h := C7_predict_harvest_dates 1260 "June 1–4" 100 _ ("P10", 1270, 1403)
    (by with_unfolding_all rfl) (by with_unfolding_all rfl)
  have h2 := C7_predict_harvest_dates 1270 "June 1–4" 100 _ ("P10", 1270, 1403)
    (by with_unfolding_all rfl) (by with_unfolding_all rfl)
  refine ⟨h2.1 (by norm_num), ?_⟩
  have h3 := (h.2 (by norm_num)).2
  rw [h3]
  norm_num

/-! ### C6 — PBW stage, generation and severity escalation -/

/-- Spec-side base severity of the PBW model: Low below 300, Moderate
below 600, otherwise High (the fixed GDD cutoffs of §4.5). -/
def pbwBaseSeverity (g : ℚ) : String :=
  if g < 300 then "Low" else if g < 600 then "Moderate" else "High"

/-- Severity ordering, used to state that escalation never downgrades. -/
def sevRank (s : String) : Nat :=
  if s = "Low" then 0 else if s = "Moderate" then 1 else 2

/-- C6: outside the five active phenophases P4–P8, `evaluate_pbw_risk`
reports "Not active" with risk 0 and a no-action recommendation; inside
them, the stage is Larvae below 200 PBW-GDD, Pupae below 400, else
Adult; the generation is min(floor(pbw_gdd/600) + 1, 3); and the base
severity (Low < 300, Moderate < 600, else High) is escalated to High
exactly when the weather-based risk percentage is at least 60 and the
base severity was not already High — never downgraded. -/
theorem C6_evaluate_pbw_risk (g : ℚ) (phen : String) (row : Option WeatherRow) :
    (phen ∉ (["P4", "P5", "P6", "P7", "P8"] : List String) →
        evaluate_pbw_risk g phen row =
          ⟨"Not active", "N/A", "None", 0, ["No action required."]⟩)
    ∧ (phen ∈ (["P4", "P5", "P6", "P7", "P8"] : List String) →
        (evaluate_pbw_risk g phen row).stage
            = (if g < 200 then "Larvae" else if g < 400 then "Pupae" else "Adult")
        ∧ (evaluate_pbw_risk g phen row).generation
            = "Generation " ++ toString (min (⌊g / 600⌋ + 1) 3)
        ∧ (evaluate_pbw_risk g phen row).adjusted_severity
            = (if 60 ≤ (evaluate_pbw_risk g phen row).risk_percentage ∧
                  pbwBaseSeverity g ≠ "High"
               then "High" else pbwBaseSeverity g)
        ∧ sevRank (pbwBaseSeverity g)
            ≤ sevRank ((evaluate_pbw_risk g phen row).adjusted_severity)) := by
  constructor
  · intro h
    simp only [evaluate_pbw_risk, if_neg h]
  · intro h
    refine ⟨?_, ?_, ?_, ?_⟩
    · simp only [evaluate_pbw_risk, if_pos h]
    · simp only [evaluate_pbw_risk, if_pos h]
      rw [ratFloor_eq_intFloor, min_def]
    · simp only [evaluate_pbw_risk, if_pos h, pbwBaseSeverity]
    · simp only [evaluate_pbw_risk, if_pos h, pbwBaseSeverity]
      split_ifs <;> simp_all [sevRank]

/-- Witness for C6: at PBW-GDD 250, phenophase "P1" is not active
(no-action record), while "P5" is active with stage "Pupae". -/
theorem C6_evaluate_pbw_risk_witness :
    evaluate_pbw_risk 250 "P1" none
        = ⟨"Not active", "N/A", "None", 0, ["No action required."]⟩
    ∧ (evaluate_pbw_risk 250 "P5" none).stage = "Pupae" := by
  refine ⟨(C6_evaluate_pbw_risk 250 "P1" none).1 (by decide), ?_⟩
  have h := ((C6_evaluate_pbw_risk 250 "P5" none).2 (by decide)).1
  rw [h]
  norm_num

/-! ### C8 — sowing window classifier totality -/

/-- Days in each month (spec-side; 29 for February so that every real
calendar date, leap years included, is covered). -/
def daysInMonth (m : Nat) : Nat :=
  if m = 2 then 29
  else if m = 4 ∨ m = 6 ∨ m = 9 ∨ m = 11 then 30
  else 31

/-- The 15 window labels of the threshold catalog, in calendar order. -/
def windowLabels : List String :=
  ["May 20–23", "May 24–27", "May 28–31", "June 1–4", "June 5–8",
   "June 9–12", "June 13–16", "June 17–20", "June 21–24", "June 25–28",
   "June 29–July 2", "July 3–6", "July 7–10", "July 11–14", "July 15"]

/-- Spec-side covered range: month/day from May 20 through July 15. -/
def coveredRange (d : Date) : Prop :=
  (d.month = 5 ∧ 20 ≤ d.day) ∨ d.month = 6 ∨ (d.month = 7 ∧ d.day ≤ 15)

instance (d : Date) : Decidable (coveredRange d) := by
  unfold coveredRange; infer_instance

set_option maxHeartbeats 1000000 in
/-- Every label `determine_sowing_window` can return is one of the 15
catalog labels (by exhausting its branch structure). -/
theorem sowing_window_mem {d : Date} {w : String}
    (h : determine_sowing_window d = some w) : w ∈ windowLabels := by
  unfold determine_sowing_window at h
  split_ifs at h <;>
    first
      | exact Option.noConfusion h
      | (injection h with h; subst h; decide)

/-- C8: `determine_sowing_window` is total — on every valid calendar
date whose month/day falls in the covered range May 20 through July 15
it returns a label, and that label is one of the 15 fixed window labels
(so buckets are contiguous and non-overlapping: the classifier is a
function and every in-range date gets exactly one label); every date
outside the range (May 1, August 1, April 1, ...) gets `none`; there
are exactly 15 labels and each one is attained by some sowing date. -/
theorem C8_determine_sowing_window_total (d : Date)
    (h1 : 1 ≤ d.month) (h2 : d.month ≤ 12)
    (h3 : 1 ≤ d.day) (h4 : d.day ≤ daysInMonth d.month) :
    ((determine_sowing_window d).isSome ↔ coveredRange d)
    ∧ (∀ w, determine_sowing_window d = some w → w ∈ windowLabels)
    ∧ windowLabels.length = 15
    ∧ (∀ w ∈ windowLabels, ∃ sd : Date, determine_sowing_window sd = some w) := by
  refine ⟨?_, fun w hw => sowing_window_mem hw, by decide, ?_⟩
  · obtain ⟨m, day⟩ := d
    dsimp only at h1 h2 h3 h4 ⊢
    interval_cases m <;> (norm_num [daysInMonth] at h4) <;>
      interval_cases day <;> decide
  · intro w hw
    fin_cases hw
    · exact ⟨⟨5, 20⟩, by decide⟩
    · exact ⟨⟨5, 24⟩, by decide⟩
    · exact ⟨⟨5, 28⟩, by decide⟩
    · exact ⟨⟨6, 1⟩, by decide⟩
    · exact ⟨⟨6, 5⟩, by decide⟩
    · exact ⟨⟨6, 9⟩, by decide⟩
    · exact ⟨⟨6, 13⟩, by decide⟩
    · exact ⟨⟨6, 17⟩, by decide⟩
    · exact ⟨⟨6, 21⟩, by decide⟩
    · exact ⟨⟨6, 25⟩, by decide⟩
    · exact ⟨⟨6, 29⟩, by decide⟩
    · exact ⟨⟨7, 3⟩, by decide⟩
    · exact ⟨⟨7, 7⟩, by decide⟩
    · exact ⟨⟨7, 11⟩, by decide⟩
    · exact ⟨⟨7, 15⟩, by decide⟩

/-- Witness for C8: June 15 is in the covered range (and classified),
August 1 is outside and gets no window. -/
theorem C8_determine_sowing_window_total_witness :
    ((determine_sowing_window ⟨6, 15⟩).isSome ↔ coveredRange ⟨6, 15⟩)
    ∧ determine_sowing_window ⟨8, 1⟩ = none := by
  constructor
  · exact (C8_determine_sowing_window_total ⟨6, 15⟩ (by decide) (by decide)
      (by decide) (by decide)).1
  · have h := (C8_determine_sowing_window_total ⟨8, 1⟩ (by decide) (by decide)
      (by decide) (by decide)).1
    rw [← Option.not_isSome_iff_eq_none]
    intro hs
    exact absurd (h.mp (by simpa using hs)) (by decide)

/-! ### C1 — risk percentage denominator -/

/-- Spec-side test: a range condition is evaluable and satisfied — the
parameter value is present and lies in the closed range. -/
def condHolds (v : Option ℚ) (r : Option (ℚ × ℚ)) : Bool :=
  match v, r with
  | some x, some (lo, hi) => decide (lo ≤ x ∧ x ≤ hi)
  | _, _ => false

/-- Spec-side test: condition `c` is evaluable and satisfied under the
insect evaluator's parameter dispatch. -/
def insectCondSatisfied (tmax humidity sunshine rain_prob : Option ℚ)
    (c : Condition) : Bool :=
  (decide (c.parameter = "temp_max") && condHolds tmax c.crange)
  || (decide (c.parameter = "humidity") && condHolds humidity c.crange)
  || (decide (c.parameter = "sunshine_hours") && condHolds sunshine c.crange)
  || (decide (c.parameter = "rain_probability") && condHolds rain_prob c.crange)

/-- Spec-side sum of the weights of the satisfied (hence evaluable)
conditions of a rule, insect dispatch. -/
def insectSatisfiedWeight (tmax humidity sunshine rain_prob : Option ℚ)
    (r : RiskRule) : ℚ :=
  (r.conditions.map (fun c =>
    if insectCondSatisfied tmax humidity sunshine rain_prob c then c.weight else 0)).sum

/-- Spec-side test: condition `c` is evaluable and satisfied under the
disease evaluator's parameter dispatch (rainy-day count included). -/
def diseaseCondSatisfied (tmax humidity rain_prob : Option ℚ) (rd : Nat)
    (c : Condition) : Bool :=
  (decide (c.parameter = "temp_max") && condHolds tmax c.crange)
  || (decide (c.parameter = "humidity") && condHolds humidity c.crange)
  || (decide (c.parameter = "rain_probability") && condHolds rain_prob c.crange)
  || (decide (c.parameter = "rainy_days") &&
      (match c.cvalue with | some v => decide (v ≤ (rd : ℚ)) | none => false))

/-- Spec-side satisfied-weight sum, disease dispatch. -/
def diseaseSatisfiedWeight (tmax humidity rain_prob : Option ℚ) (rd : Nat)
    (r : RiskRule) : ℚ :=
  (r.conditions.map (fun c =>
    if diseaseCondSatisfied tmax humidity rain_prob rd c then c.weight else 0)).sum

theorem rangeScore_eq_condHolds (v : Option ℚ) (c : Condition) :
    rangeScore v c = if condHolds v c.crange then c.weight else 0 := by
  rcases v with _ | x <;> rcases hcr : c.crange with _ | ⟨lo, hi⟩ <;>
    simp [rangeScore, condHolds, hcr]

theorem insectCondScore_eq (tmax humidity sunshine rain_prob : Option ℚ)
    (c : Condition) :
    insectCondScore tmax humidity sunshine rain_prob c
      = if insectCondSatisfied tmax humidity sunshine rain_prob c then c.weight else 0 := by
  unfold insectCondScore insectCondSatisfied
  by_cases h1 : c.parameter = "temp_max"
  · simp [h1, rangeScore_eq_condHolds]
  · by_cases h2 : c.parameter = "humidity"
    · simp [h1, h2, rangeScore_eq_condHolds]
    · by_cases h3 : c.parameter = "sunshine_hours"
      · simp [h1, h2, h3, rangeScore_eq_condHolds]
      · by_cases h4 : c.parameter = "rain_probability"
        · simp [h1, h2, h3, h4, rangeScore_eq_condHolds]
        · simp [h1, h2, h3, h4]

theorem diseaseCondScore_eq (tmax humidity rain_prob : Option ℚ) (rd : Nat)
    (c : Condition) :
    diseaseCondScore tmax humidity rain_prob rd c
      = if diseaseCondSatisfied tmax humidity rain_prob rd c then c.weight else 0 := by
  unfold diseaseCondScore diseaseCondSatisfied
  by_cases h1 : c.parameter = "temp_max"
  · simp [h1, rangeScore_eq_condHolds]
  · by_cases h2 : c.parameter = "humidity"
    · simp [h1, h2, rangeScore_eq_condHolds]
    · by_cases h3 : c.parameter = "rain_probability"
      · simp [h1, h2, h3, rangeScore_eq_condHolds]
      · by_cases h4 : c.parameter = "rainy_days"
        · rcases hv : c.cvalue with _ | v <;> simp [h1, h2, h3, h4, hv]
        · simp [h1, h2, h3, h4]

theorem foldl_add_map_sum {α : Type} (f : α → ℚ) (l : List α) (a : ℚ) :
    l.foldl (fun s c => s + f c) a = a + (l.map f).sum := by
  induction l generalizing a with
  | nil => simp
  | cons x xs ih => simp [ih, add_assoc]

theorem insectRuleScore_eq_satisfied (tmax humidity sunshine rain_prob : Option ℚ)
    (r : RiskRule) :
    insectRuleScore tmax humidity sunshine rain_prob r
      = insectSatisfiedWeight tmax humidity sunshine rain_prob r := by
  unfold insectRuleScore insectSatisfiedWeight
  rw [foldl_add_map_sum, zero_add]
  exact congrArg List.sum
    (List.map_congr_left fun c _ => insectCondScore_eq tmax humidity sunshine rain_prob c)

theorem diseaseRuleScore_eq_satisfied (tmax humidity rain_prob : Option ℚ)
    (rd : Nat) (r : RiskRule) :
    diseaseRuleScore tmax humidity rain_prob rd r
      = diseaseSatisfiedWeight tmax humidity rain_prob rd r := by
  unfold diseaseRuleScore diseaseSatisfiedWeight
  rw [foldl_add_map_sum, zero_add]
  exact congrArg List.sum
    (List.map_congr_left fun c _ => diseaseCondScore_eq tmax humidity rain_prob rd c)

/-- C1 counterexample: the claimed "evaluated-weights denominator" fails
on the code.  For the Aphids rule (weights [0.4, 0.3, 0.3]) with only
the 0.3-weight humidity condition evaluable (humidity 70 ∈ [60, 80]) and
satisfied, the code's risk percentage is 0.3/1.0 × 100 = 30%, not the
100% the claim predicts — and consequently no alert is emitted at
phenophase P1 (30 < the 40% rule threshold). -/
theorem C1_denominator_counterexample :
    insectRiskPercentage none (some 70) none none aphidsRule = 30
    ∧ insectRiskPercentage none (some 70) none none aphidsRule ≠ 100
    ∧ evaluate_insect_risks (some ⟨⟨6, 2⟩, none, none, some 70, none, none, 0⟩) "P1" = [] := by
  refine ⟨by with_unfolding_all rfl, by with_unfolding_all decide,
    by with_unfolding_all rfl⟩

/-- C1 (amended): for every rule the risk percentage equals
100 × (sum of weights of satisfied conditions) / (sum of weights of ALL
of the rule's conditions) — a condition whose parameter is missing
simply scores zero while its weight still counts in the denominator —
and is 0 when the total weight is 0 (and also whenever no condition is
evaluable, since the numerator is then 0).  Every catalog rule's weights
(insect, disease, and the PBW table) sum to exactly 1, so risk =
100 × satisfied weight; the claim's [0.4, 0.3, 0.3] example with only
the 0.3 humidity condition evaluable and satisfied yields 30%, not
100%. -/
theorem C1_risk_denominator_all_weights
    (tmax humidity sunshine rain_prob : Option ℚ) (rd : Nat) :
    (∀ r : RiskRule,
        insectRiskPercentage tmax humidity sunshine rain_prob r
          = if 0 < totalPossibleScore r.conditions
            then 100 * insectSatisfiedWeight tmax humidity sunshine rain_prob r
                  / totalPossibleScore r.conditions
            else 0)
    ∧ (∀ r : RiskRule,
        diseaseRiskPercentage tmax humidity rain_prob rd r
          = if 0 < totalPossibleScore r.conditions
            then 100 * diseaseSatisfiedWeight tmax humidity rain_prob rd r
                  / totalPossibleScore r.conditions
            else 0)
    ∧ (∀ r ∈ insect_risks, totalPossibleScore r.conditions = 1)
    ∧ (∀ r ∈ disease_risks, totalPossibleScore r.conditions = 1)
    ∧ totalPossibleScore pbw_weather_conditions = 1
    ∧ insectRiskPercentage none (some 70) none none aphidsRule = 30 := by
  refine ⟨?_, ?_, ?_, ?_, by with_unfolding_all rfl, by with_unfolding_all rfl⟩
  · intro r
    unfold insectRiskPercentage
    by_cases hW : 0 < totalPossibleScore r.conditions
    · rw [if_pos hW, if_pos hW, insectRuleScore_eq_satisfied]
      ring
    · rw [if_neg hW, if_neg hW]
  · intro r
    unfold diseaseRiskPercentage
    by_cases hW : 0 < totalPossibleScore r.conditions
    · rw [if_pos hW, if_pos hW, diseaseRuleScore_eq_satisfied]
      ring
    · rw [if_neg hW, if_neg hW]
  · intro r hr
    fin_cases hr <;> with_unfolding_all rfl
  · intro r hr
    fin_cases hr <;> with_unfolding_all rfl

/-- Witness for C1: the Aphids rule's weights sum to 1, and under the
example environment its risk percentage evaluates to 30. -/
theorem C1_risk_denominator_all_weights_witness :
    totalPossibleScore aphidsRule.conditions = 1
    ∧ insectRiskPercentage none (some 70) none none aphidsRule = 30 :=
  ⟨(C1_risk_denominator_all_weights none (some 70) none none 0).2.2.1 aphidsRule
      (by with_unfolding_all decide),
   (C1_risk_denominator_all_weights none (some 70) none none 0).2.2.2.2.2⟩

/-! ### C3 and C9 — phenophase resolver -/

/-- Position of a phase code in the order P0 < P1 < ... < P10. -/
def phaseIdx (p : String) : Nat :=
  if p = "P1" then 1
  else if p = "P2" then 2
  else if p = "P3" then 3
  else if p = "P4" then 4
  else if p = "P5" then 5
  else if p = "P6" then 6
  else if p = "P7" then 7
  else if p = "P8" then 8
  else if p = "P9" then 9
  else if p = "P10" then 10
  else 0

/-- For each catalog window label the threshold row exists, its lower
bounds are strictly increasing in P1..P10 order — so the code's
descending sort is exactly the reversed table — and along the reversed
table both the lower bounds and the phase positions strictly
decrease. -/
theorem thresholds_of_label :
    ∀ w ∈ windowLabels, ∃ t, phenophase_thresholds w = some t
      ∧ sortDescByMin t = t.reverse
      ∧ t.reverse.Pairwise (fun a b => b.2.1 < a.2.1)
      ∧ t.reverse.Pairwise (fun a b => phaseIdx b.1 < phaseIdx a.1) := by
  intro w hw
  fin_cases hw <;>
    exact ⟨_, rfl, by with_unfolding_all rfl, by decide, by decide⟩

/-- If no row's lower bound is met, the scan falls through to the P0
sentinel. -/
theorem scanFirstGe_all_lt (g : ℚ) (l : List ThresholdRow)
    (h : ∀ row ∈ l, ¬ row.2.1 ≤ g) :
    scanFirstGe g l = ("P0", "Pre-emergence") := by
  induction l with
  | nil => rfl
  | cons x xs ih =>
    obtain ⟨p, mn, mx⟩ := x
    rw [scanFirstGe, if_neg (h _ (List.mem_cons_self _ _))]
    exact ih fun r hr => h r (List.mem_cons_of_mem _ hr)

/-- The scan returns the P0 sentinel or the phase of one of its rows. -/
theorem scanFirstGe_result (g : ℚ) (l : List ThresholdRow) :
    scanFirstGe g l = ("P0", "Pre-emergence")
    ∨ ∃ row ∈ l, scanFirstGe g l = (row.1, phenophase_descriptions row.1) := by
  induction l with
  | nil => exact Or.inl rfl
  | cons x xs ih =>
    obtain ⟨p, mn, mx⟩ := x
    rw [scanFirstGe]
    by_cases h : mn ≤ g
    · exact Or.inr ⟨(p, mn, mx), List.mem_cons_self _ _, by rw [if_pos h]⟩
    · rw [if_neg h]
      rcases ih with h1 | ⟨row, hrow, heq⟩
      · exact Or.inl h1
      · exact Or.inr ⟨row, List.mem_cons_of_mem _ hrow, heq⟩

/-- On a list whose phase positions strictly decrease, a larger
cumulative GDD never resolves to an earlier phase. -/
theorem scanFirstGe_mono (g1 g2 : ℚ) (hg : g1 ≤ g2) (l : List ThresholdRow)
    (hdesc : l.Pairwise (fun a b => phaseIdx b.1 < phaseIdx a.1)) :
    phaseIdx (scanFirstGe g1 l).1 ≤ phaseIdx (scanFirstGe g2 l).1 := by
  induction l with
  | nil => exact le_refl _
  | cons x xs ih =>
    obtain ⟨p, mn, mx⟩ := x
    rw [scanFirstGe, scanFirstGe]
    rcases List.pairwise_cons.mp hdesc with ⟨hhead, htail⟩
    by_cases h1 : mn ≤ g1
    · rw [if_pos h1, if_pos (le_trans h1 hg)]
    · rw [if_neg h1]
      by_cases h2 : mn ≤ g2
      · rw [if_pos h2]
        rcases scanFirstGe_result g1 xs with hres | ⟨row, hrow, hres⟩
        · rw [hres]; simp [phaseIdx]
        · rw [hres]
          exact le_of_lt (hhead row hrow)
      · rw [if_neg h2]
        exact ih htail

/-- C3: `get_current_phenophase` returns `none` ("unknown") exactly when
the sowing date resolves to no window; otherwise it scans the window's
threshold row in descending order of lower bound (the code's generic
sort of each catalog table is exactly the reversed P1..P10 row, whose
lower bounds strictly decrease) and returns the first phase whose lower
bound is ≤ the cumulative GDD, falling through to the "P0" /
"Pre-emergence" sentinel when no lower bound is met. -/
theorem C3_get_current_phenophase (g : ℚ) (sd : Date) :
    (determine_sowing_window sd = none → get_current_phenophase g sd = none)
    ∧ (∀ w, determine_sowing_window sd = some w →
        ∃ t, phenophase_thresholds w = some t
          ∧ get_current_phenophase g sd = some (scanFirstGe g t.reverse)
          ∧ t.reverse.Pairwise (fun a b => b.2.1 < a.2.1)
          ∧ ((∀ row ∈ t, ¬ row.2.1 ≤ g) →
              get_current_phenophase g sd = some ("P0", "Pre-emergence"))) := by
  constructor
  · intro h
    simp only [get_current_phenophase, h]
  · intro w hw
    obtain ⟨t, ht, hsort, hlt, _⟩ := thresholds_of_label w (sowing_window_mem hw)
    have hmain : get_current_phenophase g sd = some (scanFirstGe g t.reverse) := by
      simp only [get_current_phenophase, hw, ht, hsort]
    refine ⟨t, ht, hmain, hlt, fun hall => ?_⟩
    rw [hmain, scanFirstGe_all_lt g t.reverse
      (fun row hrow => hall row (List.mem_reverse.mp hrow))]

/-- Witness for C3 at sowing date June 2 (window "June 1–4") and
cumulative GDD 300: the resolver output is the descending scan of the
reversed table. -/
theorem C3_get_current_phenophase_witness :
    ∃ t, phenophase_thresholds "June 1–4" = some t
      ∧ get_current_phenophase 300 ⟨6, 2⟩ = some (scanFirstGe 300 t.reverse)
      ∧ t.reverse.Pairwise (fun a b => b.2.1 < a.2.1)
      ∧ ((∀ row ∈ t, ¬ row.2.1 ≤ (300 : ℚ)) →
          get_current_phenophase 300 ⟨6, 2⟩ = some ("P0", "Pre-emergence")) :=
  (C3_get_current_phenophase 300 ⟨6, 2⟩).2 "June 1–4" (by with_unfolding_all rfl)

/-- C9: for a fixed sowing date that resolves to a window, the resolved
phenophase is monotone in cumulative GDD with respect to the order
P0 < P1 < ... < P10. -/
theorem C9_phenophase_monotone (sd : Date) (w : String) (g1 g2 : ℚ)
    (hw : determine_sowing_window sd = some w) (hg : g1 ≤ g2) :
    ∃ p1 d1 p2 d2,
      get_current_phenophase g1 sd = some (p1, d1)
      ∧ get_current_phenophase g2 sd = some (p2, d2)
      ∧ phaseIdx p1 ≤ phaseIdx p2 := by
  obtain ⟨t, ht, hsort, _, hdesc⟩ := thresholds_of_label w (sowing_window_mem hw)
  rcases h1 : scanFirstGe g1 t.reverse with ⟨p1, d1⟩
  rcases h2 : scanFirstGe g2 t.reverse with ⟨p2, d2⟩
  refine ⟨p1, d1, p2, d2, ?_, ?_, ?_⟩
  · simp only [get_current_phenophase, hw, ht, hsort, h1]
  · simp only [get_current_phenophase, hw, ht, hsort, h2]
  · have := scanFirstGe_mono g1 g2 hg t.reverse hdesc
    rw [h1, h2] at this
    exact this

/-- Witness for C9: sowing June 2, GDD 100 vs 500. -/
theorem C9_phenophase_monotone_witness :
    ∃ p1 d1 p2 d2,
      get_current_phenophase 100 ⟨6, 2⟩ = some (p1, d1)
      ∧ get_current_phenophase 500 ⟨6, 2⟩ = some (p2, d2)
      ∧ phaseIdx p1 ≤ phaseIdx p2 :=
  C9_phenophase_monotone ⟨6, 2⟩ "June 1–4" 100 500
    (by with_unfolding_all rfl) (by norm_num)

/-! ### C5 — insufficient weather data in `update_gdd` -/

/-- C5: an empty weather series indeed makes `update_gdd` return the
zero/empty result instead of failing (first conjunct).  But for a
non-empty series with no row at the question date the claim fails: the
average-temperature lookup (`.iloc[0]` on the question-day selection,
guarded only by the whole frame's non-emptiness) raises, and the
function-wide `except` returns the all-zero tuple — cumulative GDD,
PBW GDD, rainfall and phenophase dates are all discarded, not just the
average temperature.  Second conjunct: one valid day (June 5, tmax 30 /
tmin 20, daily GDD 9.4) with question date June 10 yields the all-zero
result; third conjunct: the same series with question date June 5 shows
what was discarded — cumulative GDD 9.4 and average temperature 25. -/
theorem C5_update_gdd_insufficient_data :
    (∀ sowing question thr w, update_gdd sowing question thr [] w
        = ⟨0, none, 0, 0, none, [], initPhaseDates⟩)
    ∧ update_gdd ⟨6, 4⟩ ⟨6, 10⟩ 351
        [⟨⟨6, 5⟩, some 30, some 20, none, none, none, 0⟩] "June 1–4"
        = ⟨0, none, 0, 0, none, [], initPhaseDates⟩
    ∧ update_gdd ⟨6, 4⟩ ⟨6, 5⟩ 351
        [⟨⟨6, 5⟩, some 30, some 20, none, none, none, 0⟩] "June 1–4"
        = ⟨47 / 5, none, 0, 0, some 25,
           [⟨⟨6, 5⟩, some 30, some 20, none, none, none, 0⟩], initPhaseDates⟩ := by
  refine ⟨fun sowing question thr w => rfl, ?_, ?_⟩
  · with_unfolding_all rfl
  · with_unfolding_all rfl

/-! ### C4 and C10 — historical scan invariants -/

/-- Well-formedness of the scanners' aggregation state, relative to the
full weather series and to the rows not yet processed: for each name
either no map has an entry, or all four have one, the day count is at
least 1, the first conducive date is no later than the max-risk date,
both dates are dates of weather rows, and the max-risk date is no later
than any unprocessed row's date. -/
def ScanEntriesOk (weather rest : List WeatherRow) (st : ScanState) : Prop :=
  ∀ n, (st.risk_days n = none ∧ st.first_dates n = none
          ∧ st.max_risks n = none ∧ st.max_risk_dates n = none)
    ∨ (∃ c fd m md, st.risk_days n = some c ∧ st.first_dates n = some fd
        ∧ st.max_risks n = some m ∧ st.max_risk_dates n = some md
        ∧ 1 ≤ c ∧ fd.ble md = true
        ∧ fd ∈ weather.map (fun r => r.date)
        ∧ md ∈ weather.map (fun r => r.date)
        ∧ ∀ r ∈ rest, md.ble r.date = true)

theorem scanEntriesOk_init (weather rest : List WeatherRow) :
    ScanEntriesOk weather rest initScanState :=
  fun _ => Or.inl ⟨rfl, rfl, rfl, rfl⟩

theorem scanEntriesOk_mono {weather rest rest' : List WeatherRow}
    {st : ScanState} (h : ScanEntriesOk weather rest st)
    (hsub : ∀ r ∈ rest', r ∈ rest) : ScanEntriesOk weather rest' st := by
  intro n
  rcases h n with hnone | ⟨c, fd, m, md, h1, h2, h3, h4, hc, hle, hfd, hmd, hfu⟩
  · exact Or.inl hnone
  · exact Or.inr ⟨c, fd, m, md, h1, h2, h3, h4, hc, hle, hfd, hmd,
      fun r hr => hfu r (hsub r hr)⟩

/-- `ScanEntriesOk` only reads the four per-name maps, so replacing the
cumulative GDD preserves it. -/
theorem scanEntriesOk_setCum {weather rest : List WeatherRow}
    {st : ScanState} (h : ScanEntriesOk weather rest st) (cum : ℚ) :
    ScanEntriesOk weather rest
      (ScanState.mk st.risk_days st.first_dates st.max_risks st.max_risk_dates cum) :=
  fun n => h n

theorem updFun_same {α : Type} (f : String → Option α) (k : String) (v : α) :
    updFun f k v k = some v := by simp [updFun]

theorem updFun_other {α : Type} (f : String → Option α) (k n : String) (v : α)
    (h : n ≠ k) : updFun f k v n = f n := by simp [updFun, h]

/-- `recordAlert` on a name that already has an entry: one more
conducive day, and the stored maximum (and its date) overwritten only
when the new risk is strictly greater. -/
theorem recordAlert_some {st : ScanState} {name : String} (c : Nat) (m : ℚ)
    (h1 : st.risk_days name = some c) (h3 : st.max_risks name = some m)
    (risk : ℚ) (d : Date) :
    recordAlert name risk d st =
      if m < risk then
        ScanState.mk (updFun st.risk_days name (c + 1)) st.first_dates
          (updFun st.max_risks name risk) (updFun st.max_risk_dates name d)
          st.cumulative_gdd
      else
        ScanState.mk (updFun st.risk_days name (c + 1)) st.first_dates
          st.max_risks st.max_risk_dates st.cumulative_gdd := by
  unfold recordAlert
  rw [h1, h3]

/-- `recordAlert` on a fresh name: all four maps gain an entry (count 1,
both dates the current date, maximum the current risk). -/
theorem recordAlert_new {st : ScanState} {name : String}
    (h1 : st.risk_days name = none) (risk : ℚ) (d : Date) :
    recordAlert name risk d st =
      ScanState.mk (updFun st.risk_days name 1) (updFun st.first_dates name d)
        (updFun st.max_risks name risk) (updFun st.max_risk_dates name d)
        st.cumulative_gdd := by
  unfold recordAlert
  rw [h1]

/-- Recording one alert preserves the invariant, provided the alert's
date `d` is a weather-row date, is the date of some unprocessed row, and
is no later than every unprocessed row's date. -/
theorem recordAlert_ok {weather rest : List WeatherRow} {st : ScanState}
    (name : String) (risk : ℚ) (d : Date)
    (hok : ScanEntriesOk weather rest st)
    (hd : d ∈ weather.map (fun r => r.date))
    (hrest : ∃ r0 ∈ rest, r0.date = d)
    (hfut : ∀ r ∈ rest, d.ble r.date = true) :
    ScanEntriesOk weather rest (recordAlert name risk d st) := by
  have hname := hok name
  intro n
  by_cases hn : n = name
  · subst hn
    rcases hname with ⟨h1, h2, h3, h4⟩ | ⟨c, fd, m, md, h1, h2, h3, h4, hc, hle, hfd, hmd, hfu⟩
    · rw [recordAlert_new h1]
      exact Or.inr ⟨1, d, risk, d, updFun_same _ _ _, updFun_same _ _ _,
        updFun_same _ _ _, updFun_same _ _ _, le_refl 1, Date.ble_refl d,
        hd, hd, hfut⟩
    · rw [recordAlert_some c m h1 h3]
      obtain ⟨r0, hr0, hr0d⟩ := hrest
      have hmdd : md.ble d = true := hr0d ▸ hfu r0 hr0
      have hfdd : fd.ble d = true := Date.ble_trans hle hmdd
      split_ifs with hlt
      · exact Or.inr ⟨c + 1, fd, risk, d, updFun_same _ _ _, h2,
          updFun_same _ _ _, updFun_same _ _ _, le_trans hc (Nat.le_succ c),
          hfdd, hfd, hd, hfut⟩
      · exact Or.inr ⟨c + 1, fd, m, md, updFun_same _ _ _, h2, h3, h4,
          le_trans hc (Nat.le_succ c), hle, hfd, hmd, hfu⟩
  · have hrd : ∀ v, (updFun st.risk_days name v) n = st.risk_days n :=
      fun v => updFun_other _ _ _ _ hn
    have hfdn : ∀ v, (updFun st.first_dates name v) n = st.first_dates n :=
      fun v => updFun_other _ _ _ _ hn
    have hmrn : ∀ v, (updFun st.max_risks name v) n = st.max_risks n :=
      fun v => updFun_other _ _ _ _ hn
    have hmdn : ∀ v, (updFun st.max_risk_dates name v) n = st.max_risk_dates n :=
      fun v => updFun_other _ _ _ _ hn
    have hmaps : (recordAlert name risk d st).risk_days n = st.risk_days n
        ∧ (recordAlert name risk d st).first_dates n = st.first_dates n
        ∧ (recordAlert name risk d st).max_risks n = st.max_risks n
        ∧ (recordAlert name risk d st).max_risk_dates n = st.max_risk_dates n := by
      rcases h1 : st.risk_days name with _ | c
      · rw [recordAlert_new h1]
        exact ⟨hrd _, hfdn _, hmrn _, hmdn _⟩
      · rcases h3 : st.max_risks name with _ | m
        · unfold recordAlert
          rw [h1, h3]
          exact ⟨hrd _, hfdn _, hmrn _, hmdn _⟩
        · rw [recordAlert_some c m h1 h3]
          split_ifs
          · exact ⟨hrd _, rfl, hmrn _, hmdn _⟩
          · exact ⟨hrd _, rfl, rfl, rfl⟩
    rcases hok n with ⟨h1, h2, h3, h4⟩ | ⟨c, fd, m, md, h1, h2, h3, h4, hc, hle, hfd, hmd, hfu⟩
    · exact Or.inl ⟨hmaps.1.trans h1, hmaps.2.1.trans h2,
        hmaps.2.2.1.trans h3, hmaps.2.2.2.trans h4⟩
    · exact Or.inr ⟨c, fd, m, md, hmaps.1.trans h1, hmaps.2.1.trans h2,
        hmaps.2.2.1.trans h3, hmaps.2.2.2.trans h4, hc, hle, hfd, hmd, hfu⟩

/-- Folding `recordAlert` over a day's alert list preserves the
invariant. -/
theorem foldl_record_ok {weather rest : List WeatherRow} (thr : ℚ) (d : Date)
    (hd : d ∈ weather.map (fun r => r.date))
    (hrest : ∃ r0 ∈ rest, r0.date = d)
    (hfut : ∀ r ∈ rest, d.ble r.date = true)
    (alerts : List Alert) :
    ∀ st, ScanEntriesOk weather rest st →
      ScanEntriesOk weather rest
        (alerts.foldl (fun s a =>
          if thr ≤ a.risk_percentage then recordAlert a.name a.risk_percentage d s
          else s) st) := by
  induction alerts with
  | nil => intro st hok; exact hok
  | cons a as ih =>
    intro st hok
    rw [List.foldl_cons]
    apply ih
    by_cases h : thr ≤ a.risk_percentage
    · rw [if_pos h]; exact recordAlert_ok _ _ _ hok hd hrest hfut
    · rw [if_neg h]; exact hok

/-- One day of the insect scan preserves the invariant (and discharges
the current row from the unprocessed set). -/
theorem insectScanStep_ok (sowing : Date) (weather : List WeatherRow)
    (p4sd : Option Date) (pbwg thr : ℚ) (st : ScanState) (r : WeatherRow)
    (rest : List WeatherRow)
    (hok : ScanEntriesOk weather (r :: rest) st)
    (hd : r.date ∈ weather.map (fun x => x.date))
    (hsorted : ∀ x ∈ rest, r.date.ble x.date = true) :
    ScanEntriesOk weather rest (insectScanStep sowing weather p4sd pbwg thr st r) := by
  have hrest : ∃ r0 ∈ (r :: rest), r0.date = r.date := ⟨r, List.mem_cons_self _ _, rfl⟩
  have hfut : ∀ x ∈ (r :: rest), r.date.ble x.date = true := by
    intro x hx
    rcases List.mem_cons.mp hx with rfl | hx
    · exact Date.ble_refl _
    · exact hsorted x hx
  have hsub : ∀ x ∈ rest, x ∈ (r :: rest) := fun x hx => List.mem_cons_of_mem _ hx
  have hok0 : ScanEntriesOk weather (r :: rest)
      (ScanState.mk st.risk_days st.first_dates st.max_risks st.max_risk_dates
        (st.cumulative_gdd + calculate_gdd r.tmax r.tmin)) :=
    scanEntriesOk_setCum hok _
  unfold insectScanStep
  dsimp only
  split
  · exact scanEntriesOk_mono hok0 hsub
  · next p hph =>
    have hok1 := foldl_record_ok thr r.date hd hrest hfut
      (evaluate_insect_risks ((weather.filter (fun x => decide (x.date = r.date))).head?) p.1)
      (ScanState.mk st.risk_days st.first_dates st.max_risks st.max_risk_dates
        (st.cumulative_gdd + calculate_gdd r.tmax r.tmin)) hok0
    split
    · exact scanEntriesOk_mono hok1 hsub
    · split_ifs
      · exact scanEntriesOk_mono
          (recordAlert_ok _ _ _ hok1 hd hrest hfut) hsub
      · exact scanEntriesOk_mono hok1 hsub
      · exact scanEntriesOk_mono hok1 hsub

/-- One day of the disease scan preserves the invariant. -/
theorem diseaseScanStep_ok (sowing : Date) (weather : List WeatherRow)
    (thr : ℚ) (st : ScanState) (r : WeatherRow) (rest : List WeatherRow)
    (hok : ScanEntriesOk weather (r :: rest) st)
    (hd : r.date ∈ weather.map (fun x => x.date))
    (hsorted : ∀ x ∈ rest, r.date.ble x.date = true) :
    ScanEntriesOk weather rest (diseaseScanStep sowing weather thr st r) := by
  have hrest : ∃ r0 ∈ (r :: rest), r0.date = r.date := ⟨r, List.mem_cons_self _ _, rfl⟩
  have hfut : ∀ x ∈ (r :: rest), r.date.ble x.date = true := by
    intro x hx
    rcases List.mem_cons.mp hx with rfl | hx
    · exact Date.ble_refl _
    · exact hsorted x hx
  have hsub : ∀ x ∈ rest, x ∈ (r :: rest) := fun x hx => List.mem_cons_of_mem _ hx
  have hok0 : ScanEntriesOk weather (r :: rest)
      (ScanState.mk st.risk_days st.first_dates st.max_risks st.max_risk_dates
        (st.cumulative_gdd + calculate_gdd r.tmax r.tmin)) :=
    scanEntriesOk_setCum hok _
  unfold diseaseScanStep
  dsimp only
  split
  · exact scanEntriesOk_mono hok0 hsub
  · exact scanEntriesOk_mono (foldl_record_ok thr r.date hd hrest hfut _ _ hok0) hsub

/-- The insect scan loop starting from a well-formed state ends in a
well-formed state (dates sorted ascending, rows drawn from the series). -/
theorem insectScanRows_ok (sowing end_date : Date) (weather : List WeatherRow)
    (p4sd : Option Date) (pbwg thr : ℚ) (rows : List WeatherRow) :
    ∀ st, (∀ x ∈ rows, x.date ∈ weather.map (fun y => y.date)) →
      rows.Pairwise (fun a b => a.date.ble b.date = true) →
      ScanEntriesOk weather rows st →
      ScanEntriesOk weather []
        (insectScanRows sowing end_date weather p4sd pbwg thr rows st) := by
  induction rows with
  | nil => intro st _ _ hok; exact hok
  | cons r rs ih =>
    intro st hmem hpw hok
    rw [insectScanRows]
    rcases List.pairwise_cons.mp hpw with ⟨hhead, htail⟩
    split_ifs with hbreak
    · exact scanEntriesOk_mono hok fun x hx => absurd hx (List.not_mem_nil x)
    · exact ih _ (fun x hx => hmem x (List.mem_cons_of_mem _ hx)) htail
        (insectScanStep_ok sowing weather p4sd pbwg thr st r rs hok
          (hmem r (List.mem_cons_self _ _)) hhead)

/-- The disease scan loop analogue of `insectScanRows_ok`. -/
theorem diseaseScanRows_ok (sowing end_date : Date) (weather : List WeatherRow)
    (thr : ℚ) (rows : List WeatherRow) :
    ∀ st, (∀ x ∈ rows, x.date ∈ weather.map (fun y => y.date)) →
      rows.Pairwise (fun a b => a.date.ble b.date = true) →
      ScanEntriesOk weather rows st →
      ScanEntriesOk weather []
        (diseaseScanRows sowing end_date weather thr rows st) := by
  induction rows with
  | nil => intro st _ _ hok; exact hok
  | cons r rs ih =>
    intro st hmem hpw hok
    rw [diseaseScanRows]
    rcases List.pairwise_cons.mp hpw with ⟨hhead, htail⟩
    split_ifs with hbreak
    · exact scanEntriesOk_mono hok fun x hx => absurd hx (List.not_mem_nil x)
    · exact ih _ (fun x hx => hmem x (List.mem_cons_of_mem _ hx)) htail
        (diseaseScanStep_ok sowing weather thr st r rs hok
          (hmem r (List.mem_cons_self _ _)) hhead)

/-- Final-state well-formedness of the historical insect scan. -/
theorem insect_scan_entries (sowing end_date : Date) (weather : List WeatherRow)
    (p4sd : Option Date) (pbwg thr : ℚ)
    (hs : weather.Pairwise (fun a b => a.date.ble b.date = true)) :
    ScanEntriesOk weather []
      (calculate_historical_insect_risks sowing end_date weather p4sd pbwg thr) := by
  unfold calculate_historical_insect_risks
  exact insectScanRows_ok sowing end_date weather p4sd pbwg thr weather initScanState
    (fun x hx => List.mem_map_of_mem _ hx) hs (scanEntriesOk_init weather weather)

/-- Final-state well-formedness of the historical disease scan. -/
theorem disease_scan_entries (sowing end_date : Date) (weather : List WeatherRow)
    (thr : ℚ) (hs : weather.Pairwise (fun a b => a.date.ble b.date = true)) :
    ScanEntriesOk weather []
      (calculate_historical_disease_risks sowing end_date weather thr) := by
  unfold calculate_historical_disease_risks
  exact diseaseScanRows_ok sowing end_date weather thr weather initScanState
    (fun x hx => List.mem_map_of_mem _ hx) hs (scanEntriesOk_init weather weather)

/-- C4: in every historical summary produced by the insect and disease
scanners over a date-sorted weather series, each name with an entry has
first conducive date ≤ max-risk date and a conducive-day count of at
least 1; and the recorded maximum is overwritten only by a strictly
greater risk (so on ties the first-seen maximum and its date are
kept). -/
theorem C4_historical_summary_invariant (sowing end_date : Date)
    (weather : List WeatherRow) (p4sd : Option Date) (pbwg thr : ℚ)
    (hs : weather.Pairwise (fun a b => a.date.ble b.date = true)) :
    (∀ n c,
        (calculate_historical_insect_risks sowing end_date weather p4sd pbwg thr).risk_days n
            = some c →
        1 ≤ c ∧ ∃ fd md,
          (calculate_historical_insect_risks sowing end_date weather p4sd pbwg thr).first_dates n
              = some fd
          ∧ (calculate_historical_insect_risks sowing end_date weather p4sd pbwg thr).max_risk_dates n
              = some md
          ∧ fd.ble md = true)
    ∧ (∀ n c,
        (calculate_historical_disease_risks sowing end_date weather thr).risk_days n = some c →
        1 ≤ c ∧ ∃ fd md,
          (calculate_historical_disease_risks sowing end_date weather thr).first_dates n = some fd
          ∧ (calculate_historical_disease_risks sowing end_date weather thr).max_risk_dates n = some md
          ∧ fd.ble md = true)
    ∧ (∀ (st : ScanState) (n : String) (c : Nat) (m risk : ℚ) (d : Date),
        st.risk_days n = some c → st.max_risks n = some m →
        ((risk ≤ m →
            (recordAlert n risk d st).max_risks n = some m
            ∧ (recordAlert n risk d st).max_risk_dates n = st.max_risk_dates n
            ∧ (recordAlert n risk d st).first_dates n = st.first_dates n)
         ∧ (m < risk →
            (recordAlert n risk d st).max_risks n = some risk
            ∧ (recordAlert n risk d st).max_risk_dates n = some d)
         ∧ (recordAlert n risk d st).risk_days n = some (c + 1))) := by
  refine ⟨?_, ?_, ?_⟩
  · intro n c hc
    rcases insect_scan_entries sowing end_date weather p4sd pbwg thr hs n with
      ⟨h1, _, _, _⟩ | ⟨c', fd, m, md, h1, h2, _, h4, hc', hle, _, _, _⟩
    · rw [h1] at hc; cases hc
    · rw [h1] at hc
      injection hc with hc
      subst hc
      exact ⟨hc', fd, md, h2, h4, hle⟩
  · intro n c hc
    rcases disease_scan_entries sowing end_date weather thr hs n with
      ⟨h1, _, _, _⟩ | ⟨c', fd, m, md, h1, h2, _, h4, hc', hle, _, _, _⟩
    · rw [h1] at hc; cases hc
    · rw [h1] at hc
      injection hc with hc
      subst hc
      exact ⟨hc', fd, md, h2, h4, hle⟩
  · intro st n c m risk d h1 h2
    refine ⟨fun hrm => ?_, fun hlt => ?_, ?_⟩
    · rw [recordAlert_some c m h1 h2, if_neg (not_lt.mpr hrm)]
      exact ⟨h2, rfl, rfl⟩
    · rw [recordAlert_some c m h1 h2, if_pos hlt]
      exact ⟨updFun_same _ _ _, updFun_same _ _ _⟩
    · rw [recordAlert_some c m h1 h2]
      split_ifs <;> exact updFun_same _ _ _

/-- Witness for C4: a one-day series (June 2, tmax 34, tmin 200,
humidity 70, sunshine 6) with sowing June 1 puts the crop in P1 and
fully satisfies the Aphids conditions, producing an Aphids entry with
one conducive day. -/
theorem C4_historical_summary_invariant_witness :
    1 ≤ 1 ∧ ∃ fd md,
      (calculate_historical_insect_risks ⟨6, 1⟩ ⟨6, 30⟩
        [⟨⟨6, 2⟩, some 34, some 200, some 70, some 6, none, 0⟩]
        none 0 40).first_dates "Aphids" = some fd
      ∧ (calculate_historical_insect_risks ⟨6, 1⟩ ⟨6, 30⟩
        [⟨⟨6, 2⟩, some 34, some 200, some 70, some 6, none, 0⟩]
        none 0 40).max_risk_dates "Aphids" = some md
      ∧ fd.ble md = true :=
  (C4_historical_summary_invariant ⟨6, 1⟩ ⟨6, 30⟩
    [⟨⟨6, 2⟩, some 34, some 200, some 70, some 6, none, 0⟩] none 0 40
    (by simp)).1 "Aphids" 1 (by with_unfolding_all rfl)

/-- C10 (implicit claim): a target day for which the weather data
contains no row yields an empty alert list from both evaluators,
regardless of phenophase, and the historical summaries of a date-sorted
series only ever record dates of rows that exist in the series — so a
day with no weather row can neither emit an alert nor contribute a
conducive day. -/
theorem C10_no_weather_row (sowing end_date : Date)
    (weather : List WeatherRow) (p4sd : Option Date) (pbwg thr : ℚ)
    (hs : weather.Pairwise (fun a b => a.date.ble b.date = true)) :
    (∀ phen, evaluate_insect_risks none phen = [])
    ∧ (∀ (wd : List WeatherRow) (phen : String) (d : Date),
        (∀ r ∈ wd, r.date ≠ d) → evaluate_disease_risks wd phen d = [])
    ∧ (∀ n fd,
        (calculate_historical_insect_risks sowing end_date weather p4sd pbwg thr).first_dates n
            = some fd → fd ∈ weather.map (fun r => r.date))
    ∧ (∀ n md,
        (calculate_historical_insect_risks sowing end_date weather p4sd pbwg thr).max_risk_dates n
            = some md → md ∈ weather.map (fun r => r.date))
    ∧ (∀ n fd,
        (calculate_historical_disease_risks sowing end_date weather thr).first_dates n
            = some fd → fd ∈ weather.map (fun r => r.date))
    ∧ (∀ n md,
        (calculate_historical_disease_risks sowing end_date weather thr).max_risk_dates n
            = some md → md ∈ weather.map (fun r => r.date)) := by
  refine ⟨fun phen => rfl, ?_, ?_, ?_, ?_, ?_⟩
  · intro wd phen d hne
    have hfil : wd.filter (fun r => decide (r.date = d)) = [] := by
      rw [List.filter_eq_nil_iff]
      intro r hr
      simpa using hne r hr
    simp only [evaluate_disease_risks, hfil, List.head?_nil]
  · intro n fd hfd
    rcases insect_scan_entries sowing end_date weather p4sd pbwg thr hs n with
      ⟨_, h2, _, _⟩ | ⟨c, fd', m, md, _, h2, _, _, _, _, hfd', _, _⟩
    · rw [h2] at hfd; cases hfd
    · rw [h2] at hfd; injection hfd with hfd; subst hfd; exact hfd'
  · intro n md hmd
    rcases insect_scan_entries sowing end_date weather p4sd pbwg thr hs n with
      ⟨_, _, _, h4⟩ | ⟨c, fd, m, md', _, _, _, h4, _, _, _, hmd', _⟩
    · rw [h4] at hmd; cases hmd
    · rw [h4] at hmd; injection hmd with hmd; subst hmd; exact hmd'
  · intro n fd hfd
    rcases disease_scan_entries sowing end_date weather thr hs n with
      ⟨_, h2, _, _⟩ | ⟨c, fd', m, md, _, h2, _, _, _, _, hfd', _, _⟩
    · rw [h2] at hfd; cases hfd
    · rw [h2] at hfd; injection hfd with hfd; subst hfd; exact hfd'
  · intro n md hmd
    rcases disease_scan_entries sowing end_date weather thr hs n with
      ⟨_, _, _, h4⟩ | ⟨c, fd, m, md', _, _, _, h4, _, _, _, hmd', _⟩
    · rw [h4] at hmd; cases hmd
    · rw [h4] at hmd; injection hmd with hmd; subst hmd; exact hmd'

/-- Witness for C10: the disease evaluator on a series with a single
June 5 row returns no alerts for the row-less June 6, and the insect
scan's recorded first date for Aphids is the date of a series row. -/
theorem C10_no_weather_row_witness :
    evaluate_disease_risks [⟨⟨6, 5⟩, some 30, some 20, none, none, none, 0⟩] "P3" ⟨6, 6⟩ = []
    ∧ (⟨6, 2⟩ : Date) ∈
        ([⟨⟨6, 2⟩, some 34, some 200, some 70, some 6, none, 0⟩] : List WeatherRow).map
          (fun r => r.date) := by
  have h := C10_no_weather_row ⟨6, 1⟩ ⟨6, 30⟩
    [⟨⟨6, 2⟩, some 34, some 200, some 70, some 6, none, 0⟩] none 0 40 (by simp)
  refine ⟨h.2.1 _ "P3" ⟨6, 6⟩ (by decide), ?_⟩
  exact h.2.2.1 "Aphids" ⟨6, 2⟩ (by with_unfolding_all rfl)

end Cotton
